import Mathlib

/-!
Shallow embedding of the construction-mvp backend (src/main.py, src/templates.py).

The external datastore (supabase) is modelled as an explicit record of tables;
each table write appends a row and an event to a write trace.  The LLM client
(groq) is modelled as an oracle passed to the functions that call it: `none`
stands for a call or JSON parse that raises, `some r` for a successfully
parsed response `r`.  Machine ids are `Nat`; dates are day counts (`Nat`).
-/

namespace ConstructionMVP

/-! ## Data model: rows of the datastore tables -/

/-- A row of the `projects` table (the columns generate-schedule touches). -/
structure ProjectRow where
  id : Nat
  name : String
  code : String
  status : String
  deriving Repr, DecidableEq

/-- A row of the `stages` table. -/
structure StageRow where
  id : Nat
  project_id : Nat
  name : String
  status : String
  deriving Repr, DecidableEq

/-- A row of the `tasks` table.  `project_id` is `none` when the insert
payload carried no `project_id` key (the column stays NULL). -/
structure TaskRow where
  id : Nat
  project_id : Option Nat
  stage_id : Nat
  parent_task_id : Option Nat
  name : String
  assigned_role : String
  status : String
  assigned_sub_id : Option String
  start_date : Option Nat
  end_date : Option Nat
  deriving Repr, DecidableEq

/-- A row of the `leads` table. -/
structure LeadRow where
  project_id : Nat
  name : String
  phone : String
  email : String
  source : String
  lead_score : Nat
  status : String
  deriving Repr, DecidableEq

/-- A row of the `chat_logs` table. -/
structure ChatLogRow where
  project_id : Nat
  user_id : String
  message_text : String
  deriving Repr, DecidableEq

/-- A row of the `project_members` table (the columns auto-schedule reads). -/
structure MemberRow where
  project_id : Nat
  user_id : String
  role : String
  skills_tags : List String
  deriving Repr, DecidableEq

/-- Side effects of a request, in the order they are issued. -/
inductive Event where
  | insertChatLog (project_id : Nat) (user_id message : String)
  | insertTask (stage_id : Nat)
  | updateTask (id : Nat)
  | insertLead (project_id : Nat)
  | insertStage (project_id : Nat)
  | insertProject (code : String)
  | llmCall
  deriving Repr, DecidableEq

/-- The datastore: one list per table, per-table id counters, and the write
trace. -/
structure DB where
  projects : List ProjectRow
  stages : List StageRow
  tasks : List TaskRow
  leads : List LeadRow
  chat_logs : List ChatLogRow
  members : List MemberRow
  nextProjectId : Nat
  nextStageId : Nat
  nextTaskId : Nat
  trace : List Event
  deriving Repr, DecidableEq

/-- The empty datastore. -/
def DB.empty : DB := ⟨[], [], [], [], [], [], 1, 1, 1, []⟩

/-- Append a bare event (used to mark an LLM call). -/
def DB.logEvent (db : DB) (e : Event) : DB :=
  { db with trace := db.trace ++ [e] }

/-- `supabase.table("tasks").insert(...).execute()`: the row is stored and its
generated id returned when the insert yields data; the oracle `ok` (indexed by
the id the attempt would use) decides whether `res.data` is non-empty.  An
attempt consumes an id either way. -/
def DB.insertTaskRow (db : DB) (ok : Nat → Bool) (project_id : Option Nat)
    (stage_id : Nat) (parent_task_id : Option Nat) (name assigned_role status : String) :
    DB × Option Nat :=
  let i := db.nextTaskId
  if ok i then
    ({ db with
        tasks := db.tasks ++ [⟨i, project_id, stage_id, parent_task_id, name,
                               assigned_role, status, none, none, none⟩],
        nextTaskId := i + 1,
        trace := db.trace ++ [.insertTask stage_id] }, some i)
  else
    ({ db with nextTaskId := i + 1, trace := db.trace ++ [.insertTask stage_id] }, none)

/-! ## Task trees (the parsed LLM `tasks` JSON) -/

/-- A node of the nested task JSON handed to `save_recursive_tasks`:
`task_name`, an optional `assigned_role` key, and a `subtasks` list. -/
inductive TaskNode where
  | mk (task_name : String) (assigned_role : Option String) (subtasks : List TaskNode)

def TaskNode.task_name : TaskNode → String
  | .mk n _ _ => n

def TaskNode.assigned_role : TaskNode → Option String
  | .mk _ r _ => r

def TaskNode.subtasks : TaskNode → List TaskNode
  | .mk _ _ s => s

/-- `save_recursive_tasks(tasks_list, stage_id, parent_id)` (main.py:133-146):
for each node insert a row with the fixed payload; when the insert yields an
id and the node has a non-empty `subtasks` list, recurse with that id as the
new parent; a failed insert silently skips the subtree. -/
def save_recursive_tasks (ok : Nat → Bool) :
    List TaskNode → Nat → Option Nat → DB → DB
  | [], _, _, db => db
  | TaskNode.mk name role subs :: rest, stage_id, parent_id, db =>
    let ins := db.insertTaskRow ok none stage_id parent_id name
        (role.getD "General") "Not Started"
    match ins.2 with
    | some current_task_id =>
      let db2 := if subs.isEmpty then ins.1
                 else save_recursive_tasks ok subs stage_id (some current_task_id) ins.1
      save_recursive_tasks ok rest stage_id parent_id db2
    | none => save_recursive_tasks ok rest stage_id parent_id ins.1
  termination_by l => sizeOf l
  decreasing_by
    all_goals simp_wf
    all_goals omega

/-- Specification of the rows `save_recursive_tasks` produces when every
insert succeeds: a preorder flattening.  Ids are assigned sequentially from
`n`; every row carries the caller's `stage_id` and status `"Not Started"`;
a root row's `parent_task_id` is the caller-supplied `parent_id`, and a
subtask row's `parent_task_id` is its parent's generated id.  Children keep
their input order; nothing is reordered or deduplicated.  Returns the rows
and the next unused id. -/
def flattenSpec : List TaskNode → Nat → Option Nat → Nat → List TaskRow × Nat
  | [], _, _, n => ([], n)
  | TaskNode.mk name role subs :: rest, stage_id, parent_id, n =>
    let row : TaskRow := ⟨n, none, stage_id, parent_id, name,
                          role.getD "General", "Not Started", none, none, none⟩
    let sub := flattenSpec subs stage_id (some n) (n + 1)
    let rst := flattenSpec rest stage_id parent_id sub.2
    (row :: (sub.1 ++ rst.1), rst.2)
  termination_by l => sizeOf l
  decreasing_by
    all_goals simp_wf
    all_goals omega

/-- Number of nodes in a forest of task trees. -/
def nodeCount : List TaskNode → Nat
  | [] => 0
  | TaskNode.mk _ _ subs :: rest => 1 + nodeCount subs + nodeCount rest
  termination_by l => sizeOf l
  decreasing_by
    all_goals simp_wf
    all_goals omega

/-- The full ordered tree of depth `d` (root at depth 0, leaves at depth `d`)
and breadth `b` at each level. -/
def perfectTree : Nat → Nat → TaskNode
  | 0, _ => .mk "Task" none []
  | d + 1, b => .mk "Task" none (List.replicate b (perfectTree d b))

/-! ## WBS templates (src/templates.py) -/

/-- One entry of the WBS template list. -/
structure StageTemplate where
  stage : String
  desc : String
  weather_sensitive : Bool
  deriving Repr, DecidableEq

/-- `get_wbs_template(project_type, sub_type, floors, towers)`
(templates.py:3-65), translated branch for branch; the High-Rise loop over
`range(floors // 5 + 1)` becomes a `foldl` that appends a stage exactly when
`start <= floors`. -/
def get_wbs_template (project_type sub_type : String) (floors towers : Nat) :
    List StageTemplate :=
  if project_type = "Residential" ∧ (sub_type = "Villa" ∨ sub_type = "Single Family") then
    [⟨"Pre-Construction", "Permits, Soil Testing, Site Clearing", false⟩,
     ⟨"Foundation", "Excavation, Footings, Slab pouring", true⟩,
     ⟨"Structure (Shell)", "Framing, Roof Trusses, Sheathing", true⟩,
     ⟨"Rough MEP", "Plumbing, Electrical, HVAC ducts inside walls", false⟩,
     ⟨"Insulation & Drywall", "Wall closing, Mudding, Taping", false⟩,
     ⟨"Interior Finishes", "Flooring, Cabinets, Painting, Fixtures", false⟩,
     ⟨"Exterior Finishes", "Siding, Stucco, Driveway, Landscaping", true⟩,
     ⟨"Final Handover", "Punch list, Cleaning, Final Inspection", false⟩]
  else if project_type = "Residential" ∧ sub_type = "High-Rise" then
    let wbs : List StageTemplate :=
      [⟨"Site Mobilization", "Fencing, Cranes Setup, Site Office", true⟩,
       ⟨"Excavation & Piling", "Deep excavation, Shoring, Piles", true⟩,
       ⟨"Substructure (Basement)", "Basement levels, Retaining walls", true⟩,
       ⟨"Podium/Lobby Level", "Ground floor high-ceilings, Transfer slabs", true⟩]
    let floor_groups := floors / 5 + 1
    let towerLabel := if towers = 1 then "1" else "A/B"
    let wbs := (List.range floor_groups).foldl (fun acc i =>
      let start := i * 5 + 1
      let stop := min ((i + 1) * 5) floors
      if start ≤ floors then
        acc ++ [⟨"Superstructure (Floors " ++ toString start ++ "-" ++ toString stop ++ ")",
                 "Column pouring, Slab casting for tower " ++ towerLabel, true⟩]
      else acc) wbs
    wbs ++
      [⟨"Facade & Envelope", "Glass curtain wall, Cladding", true⟩,
       ⟨"MEP First Fix", "Risers, Main distribution lines", false⟩,
       ⟨"Interiors (Fit-out)", "Partitions, Flooring, Ceilings per unit", false⟩,
       ⟨"Testing & Commissioning", "Elevator testing, Fire safety systems", false⟩]
  else if project_type = "Commercial" then
    [⟨"Site Prep", "Grading, Utilities connection", true⟩,
     ⟨"Steel Structure", "Steel erection, Bolting, Decking", true⟩,
     ⟨"Building Envelope", "Roofing, Exterior Walls, Glazing", true⟩,
     ⟨"Core MEP", "Main HVAC units, Sprinkler mains", false⟩,
     ⟨"Tenant Improvements", "Specific fit-out for retail/offices", false⟩]
  else
    [⟨"General Construction", "Standard phases", true⟩]

/-- Modelled from the spec: `get_phase_structure` is imported by main.py:14
from `templates`, but templates.py under src/ does not define it.  Per the
spec it maps the project_type enum {Residential, Commercial, Mixed-Use,
Hospitality, Institutional, Industrial, Infrastructure, Renovation} to a
fixed ordered list of 6-8 high-level phase name strings, with an independent
fallback `["Mobilization", "Construction", "Closeout"]` for any other value.
The spec does not record the individual phase names, so representative
fixed lists of the specified lengths stand in for them. -/
def get_phase_structure (project_type : String) : List String :=
  if project_type = "Residential" then
    ["Mobilization", "Foundation", "Structure", "MEP Rough-In", "Finishes",
     "Landscaping", "Handover"]
  else if project_type = "Commercial" then
    ["Mobilization", "Site Work", "Core & Shell", "MEP Systems", "Fit-Out",
     "Commissioning", "Closeout"]
  else if project_type = "Mixed-Use" then
    ["Mobilization", "Substructure", "Podium", "Towers", "Facade", "Fit-Out",
     "Commissioning", "Closeout"]
  else if project_type = "Hospitality" then
    ["Mobilization", "Structure", "Envelope", "Guest Room Fit-Out",
     "Public Areas", "FF&E", "Commissioning", "Handover"]
  else if project_type = "Institutional" then
    ["Mobilization", "Foundation", "Structure", "Envelope", "Specialty Systems",
     "Finishes", "Commissioning"]
  else if project_type = "Industrial" then
    ["Mobilization", "Civil Works", "Steel Erection", "Process Equipment",
     "Utilities", "Commissioning"]
  else if project_type = "Infrastructure" then
    ["Mobilization", "Earthworks", "Drainage", "Structures", "Paving",
     "Signage & Safety", "Handover"]
  else if project_type = "Renovation" then
    ["Mobilization", "Demolition", "Structural Repair", "MEP Upgrade",
     "Finishes", "Closeout"]
  else
    ["Mobilization", "Construction", "Closeout"]

/-! ## Lead qualification (main.py:148-162) -/

/-- The `extracted_data` object of the qualifier's JSON; every key may be
absent. -/
structure Extracted where
  name : Option String
  phone : Option String
  email : Option String
  deriving Repr, DecidableEq

/-- The `scoring` object of the qualifier's JSON; the `score` key may be
absent. -/
structure Scoring where
  score : Option Nat
  deriving Repr, DecidableEq

/-- The parsed JSON the lead-qualifier LLM returns; top-level keys may be
absent. -/
structure AIResult where
  extracted_data : Option Extracted
  scoring : Option Scoring
  deriving Repr, DecidableEq

/-- `qualify_lead_with_ai(raw_text)` (main.py:148-162): the LLM call plus
JSON parse is the oracle `llm`; `none` is any exception (network, parse),
caught by the bare `except`, which returns `{"scoring": {"score": 0}}`. -/
def qualify_lead_with_ai (llm : String → Option AIResult) (raw_text : String) :
    AIResult :=
  match llm raw_text with
  | some parsed => parsed
  | none => { extracted_data := none, scoring := some { score := some 0 } }

/-- `ai_result.get("scoring", {}).get("score", 0)` (main.py:274). -/
def aiScore (ai : AIResult) : Nat :=
  match ai.scoring with
  | some sc => sc.score.getD 0
  | none => 0

/-! ## Chat endpoint (main.py:237-289) -/

/-- Request body of `POST /chat/send`. -/
structure ChatMessage where
  project_id : Nat
  user_id : String
  message : String
  context : String
  deriving Repr, DecidableEq

/-- One entry of the task context handed to the Execution-branch LLM
(main.py:248). -/
structure TaskCtx where
  id : Nat
  name : String
  status : String
  deriving Repr, DecidableEq

/-- The parsed JSON of the Execution-branch LLM; keys may be absent. -/
structure ExecRes where
  action : Option String
  task_id : Option Nat
  new_status : Option String
  reply : Option String
  deriving Repr, DecidableEq

/-- An endpoint's `{status, response}` JSON reply. -/
structure ChatResp where
  status : String
  response : String
  deriving Repr, DecidableEq

/-- `supabase.table("tasks").select(...).eq("project_id", pid)` : the rows
whose `project_id` column equals `pid` (a NULL column never matches). -/
def filter_by_project (rows : List TaskRow) (project_id : Nat) : List TaskRow :=
  rows.filter (fun t => t.project_id == some project_id)

/-- The task context of the Execution branch (main.py:246-248): all tasks of
the project, truncated to the first 30 (`tasks_res.data[:30]`), projected to
id/name/status. -/
def execution_task_context (db : DB) (project_id : Nat) : List TaskCtx :=
  ((filter_by_project db.tasks project_id).take 30).map
    (fun t => ⟨t.id, t.name, t.status⟩)

/-- Append a `chat_logs` row (main.py:240-242). -/
def DB.insertChatLogRow (db : DB) (project_id : Nat) (user_id message : String) : DB :=
  { db with
      chat_logs := db.chat_logs ++ [⟨project_id, user_id, message⟩],
      trace := db.trace ++ [.insertChatLog project_id user_id message] }

/-- Append a `leads` row. -/
def DB.insertLeadRow (db : DB) (row : LeadRow) : DB :=
  { db with
      leads := db.leads ++ [row],
      trace := db.trace ++ [.insertLead row.project_id] }

/-- `send_chat_update` (`POST /chat/send`, main.py:237-289).  The two LLM
calls are oracles: `execLLM` receives the task context the code embeds in
its prompt and returns the parsed JSON (`none` = any exception, caught by
the branch's `except`); `salesLLM` is the oracle inside
`qualify_lead_with_ai`.  A missing `task_id`/`new_status` key on an
`"UPDATE"` action raises `KeyError` inside the `try`, so the branch falls
to the same error reply without touching the tasks table.  The stored raw
`ai_qualification` payload is not modelled (no claim mentions it). -/
def send_chat_update (execLLM : List TaskCtx → Option ExecRes)
    (salesLLM : String → Option AIResult) (req : ChatMessage) (db : DB) :
    DB × ChatResp :=
  let db := db.insertChatLogRow req.project_id req.user_id req.message
  if req.context = "Execution" then
    let task_context := execution_task_context db req.project_id
    let db := db.logEvent .llmCall
    match execLLM task_context with
    | none => (db, ⟨"Error", "I didn't quite catch that update."⟩)
    | some res =>
      if res.action = some "UPDATE" then
        match res.task_id, res.new_status with
        | some tid, some ns =>
          let db := { db with
              tasks := db.tasks.map (fun r => if r.id == tid then { r with status := ns } else r),
              trace := db.trace ++ [.updateTask tid] }
          (db, ⟨"Action Taken", res.reply.getD "Task updated."⟩)
        | _, _ => (db, ⟨"Error", "I didn't quite catch that update."⟩)
      else
        (db, ⟨"Replied", res.reply.getD "Understood."⟩)
  else if req.context = "Sales" then
    let db := db.logEvent .llmCall
    let ai_result := qualify_lead_with_ai salesLLM req.message
    if aiScore ai_result > 0 then
      let extracted := ai_result.extracted_data.getD ⟨none, none, none⟩
      let lead : LeadRow :=
        ⟨req.project_id, extracted.name.getD "New Lead", extracted.phone.getD "",
         extracted.email.getD "", "Chat",
         (ai_result.scoring.getD ⟨none⟩).score.getD 50, "New"⟩
      let db := db.insertLeadRow lead
      (db, ⟨"Lead Detected",
            "Added " ++ lead.name ++ " to pipeline (Score: " ++
              toString lead.lead_score ++ ")."⟩)
    else
      (db, ⟨"Message Logged", "Message logged."⟩)
  else
    (db, ⟨"Message Logged", "Message logged."⟩)

/-! ## Schedule generation (main.py:186-213) -/

/-- Request body of `POST /projects/generate-schedule` (the fields the
datastore writes use; the remaining fields only feed the prompt). -/
structure ProjectRequest where
  name : String
  code : String
  project_type : String
  deriving Repr, DecidableEq

/-- One entry of the parsed LLM `schedule` array; `tasks` is `none` when the
`'tasks' in item` check fails. -/
structure ScheduleStage where
  stage_name : String
  tasks : Option (List TaskNode)

/-- Append a `projects` row, returning the generated id (main.py:192). -/
def DB.insertProjectRow (db : DB) (name code status : String) : DB × Nat :=
  let i := db.nextProjectId
  ({ db with
      projects := db.projects ++ [⟨i, name, code, status⟩],
      nextProjectId := i + 1,
      trace := db.trace ++ [.insertProject code] }, i)

/-- Append a `stages` row; the oracle `okS` decides whether `res.data` is
non-empty (main.py:210). -/
def DB.insertStageRow (db : DB) (okS : Nat → Bool) (project_id : Nat)
    (name status : String) : DB × Option Nat :=
  let i := db.nextStageId
  if okS i then
    ({ db with
        stages := db.stages ++ [⟨i, project_id, name, status⟩],
        nextStageId := i + 1,
        trace := db.trace ++ [.insertStage project_id] }, some i)
  else
    ({ db with nextStageId := i + 1, trace := db.trace ++ [.insertStage project_id] }, none)

/-- The `for item in schedule_data['schedule']` loop (main.py:209-212):
insert a stage; when the insert yields data and the item has a `tasks` key,
persist the item's task tree under the new stage id. -/
def schedule_loop (ok okS : Nat → Bool) (project_id : Nat) :
    List ScheduleStage → DB → DB
  | [], db => db
  | item :: rest, db =>
    let sres := db.insertStageRow okS project_id item.stage_name "Scheduled"
    let db2 := match sres.2, item.tasks with
      | some sid, some ts => save_recursive_tasks ok ts sid none sres.1
      | _, _ => sres.1
    schedule_loop ok okS project_id rest db2

/-- `generate_schedule` (`POST /projects/generate-schedule`,
main.py:186-213): find-or-create the project by `code` (`existing.data[0]`
is the first matching row), call the LLM, then run the stage loop on the
parsed `schedule` array (the oracle `llm`).  Returns the new state and the
`project_id` of the response. -/
def generate_schedule (ok okS : Nat → Bool) (llm : List ScheduleStage)
    (req : ProjectRequest) (db : DB) : DB × Nat :=
  let existing := db.projects.filter (fun p => p.code == req.code)
  let found : DB × Nat :=
    match existing.head? with
    | some p => (db, p.id)
    | none => db.insertProjectRow req.name req.code "Planning"
  let db1 := found.1.logEvent .llmCall
  (schedule_loop ok okS found.2 llm db1, found.2)

/-! ## Auto-scheduler (main.py:292-336) -/

/-- Request body of `POST /projects/auto-schedule`. -/
structure ScheduleRequest where
  project_id : Nat
  deriving Repr, DecidableEq

/-- One entry of the planner LLM's `assignments` array; `member_id` is
`none` when the key is absent (and `""` is as falsy as absence in
`if item.get("member_id")`). -/
structure Assignment where
  task_id : Nat
  member_id : Option String
  hours : Nat
  deriving Repr, DecidableEq

/-- The body of the assignment loop (main.py:321-332): skip when
`item.get("member_id")` is falsy; otherwise update the matching task rows
with `days = max(1, hours // 8)`, `start_date = today`,
`end_date = today + days`, status `"In Progress"`. -/
def apply_assignment (today : Nat) (db : DB) (a : Assignment) : DB :=
  if a.member_id.getD "" = "" then db
  else
    let days := max 1 (a.hours / 8)
    let endDate := today + days
    { db with
        tasks := db.tasks.map (fun r =>
          if r.id == a.task_id then
            { r with assigned_sub_id := a.member_id, start_date := some today,
                     end_date := some endDate, status := "In Progress" }
          else r),
        trace := db.trace ++ [.updateTask a.task_id] }

/-- `auto_schedule` (`POST /projects/auto-schedule`, main.py:292-336).
`today` models `datetime.now()` as a day count; the oracle `llm` is the
parsed planner JSON's `assignments` array (`none` = any exception, caught
and turned into the `"Error"` reply; a missing `assignments` key is
`plan.get("assignments", [])`, i.e. `some []`).  Returns the state, the
`status` string and `tasks_updated`. -/
def auto_schedule (llm : Option (List Assignment)) (today : Nat)
    (req : ScheduleRequest) (db : DB) : DB × String × Nat :=
  let tasks := db.tasks.filter
    (fun t => t.project_id == some req.project_id && t.status == "Not Started")
  let members := db.members.filter (fun m => m.project_id == req.project_id)
  if tasks.isEmpty then (db, "No tasks to schedule", 0)
  else if members.isEmpty then (db, "No team members found", 0)
  else
    let db := db.logEvent .llmCall
    match llm with
    | none => (db, "Error", 0)
    | some plan =>
      let final := plan.foldl (apply_assignment today) db
      (final, "Scheduled", plan.countP (fun a => a.member_id.getD "" != ""))

/-! ## Task CRUD (main.py:367-377) -/

/-- Request body of `POST /tasks/add`. -/
structure TaskAdd where
  stage_id : Nat
  parent_task_id : Option Nat
  name : String
  assigned_role : String
  deriving Repr, DecidableEq

/-- `add_task` (`POST /tasks/add`, main.py:367-377): fetch the stage's
`project_id` (`single()` raises when the stage is absent, modelled as
`none`), then insert a task row whose payload carries that `project_id`. -/
def add_task (ok : Nat → Bool) (req : TaskAdd) (db : DB) : Option DB :=
  match db.stages.find? (fun s => s.id == req.stage_id) with
  | none => none
  | some stage =>
    some (db.insertTaskRow ok (some stage.project_id) req.stage_id
      req.parent_task_id req.name req.assigned_role "Not Started").1

/-! ## Concrete fixtures used in witnesses and counterexamples -/

/-- An insert oracle under which every insert yields data. -/
def okAll : Nat → Bool := fun _ => true

/-- An insert oracle under which no insert yields data. -/
def okNone : Nat → Bool := fun _ => false

/-- A datastore holding one already-completed task of project 1. -/
def dbCompletedTask : DB :=
  { DB.empty with tasks := [⟨1, some 1, 1, none, "Install rebar", "General",
                             "Completed", none, none, none⟩] }

/-- A datastore holding one unstarted task of project 1 and one team member. -/
def dbOneOpenTask : DB :=
  { DB.empty with
      tasks := [⟨1, some 1, 1, none, "Pour slab", "General", "Not Started",
                 none, none, none⟩],
      members := [⟨1, "u1", "Engineer", []⟩] }

/-- Total node count of a parsed `schedule` array. -/
def scheduleNodeCount (l : List ScheduleStage) : Nat :=
  (l.map (fun item => nodeCount (item.tasks.getD []))).sum

/-- A lead-qualifier oracle whose LLM call or JSON parse always fails. -/
def llmFailing : String → Option AIResult := fun _ => none

/-- A lead-qualifier oracle returning a parsed result with score 0. -/
def salesZero : String → Option AIResult := fun _ => some ⟨none, some ⟨some 0⟩⟩

/-- A lead-qualifier oracle returning a parsed result with score 80 and full
contact data. -/
def salesHigh : String → Option AIResult :=
  fun _ => some ⟨some ⟨some "Jane Doe", some "555-0100", some "jane@example.com"⟩,
                 some ⟨some 80⟩⟩

/-- An Execution-branch oracle that always fails. -/
def execNone : List TaskCtx → Option ExecRes := fun _ => none

/-- A `POST /chat/send` request in the Sales context. -/
def reqSales : ChatMessage := ⟨1, "user-1", "Interested in a 2BR", "Sales"⟩

/-- A `POST /projects/generate-schedule` request. -/
def reqGen : ProjectRequest := ⟨"Tower A", "TWR-A", "Residential"⟩

/-- A one-stage, one-task parsed schedule. -/
def llmSched : List ScheduleStage :=
  [⟨"Foundation", some [TaskNode.mk "Excavate" none []]⟩]

/-- A datastore holding one stage (id 3) of project 5. -/
def dbOneStage : DB :=
  { DB.empty with stages := [⟨3, 5, "Foundation", "Scheduled"⟩] }

/-! ## Lemmas about the recursive task persister -/

/-- When every insert yields an id, `save_recursive_tasks` appends exactly
the preorder flattening of its input, and consumes exactly its ids. -/
theorem save_tasks_spec (ok : Nat → Bool) (hok : ∀ n, ok n = true) :
    (l : List TaskNode) → (sid : Nat) → (pid : Option Nat) → (db : DB) →
    (save_recursive_tasks ok l sid pid db).tasks
        = db.tasks ++ (flattenSpec l sid pid db.nextTaskId).1
      ∧ (save_recursive_tasks ok l sid pid db).nextTaskId
        = (flattenSpec l sid pid db.nextTaskId).2
  | [], sid, pid, db => by
    simp [save_recursive_tasks, flattenSpec]
  | TaskNode.mk name role subs :: rest, sid, pid, db => by
    have ihsub := fun db' => save_tasks_spec ok hok subs sid
      (some db.nextTaskId) db'
    have ihrest := fun db' => save_tasks_spec ok hok rest sid pid db'
    by_cases hsubs : subs = []
    · subst hsubs
      simp only [save_recursive_tasks, DB.insertTaskRow, hok, if_true,
        List.isEmpty_nil, flattenSpec]
      have h := ihrest { db with
        tasks := db.tasks ++ [⟨db.nextTaskId, none, sid, pid, name,
          role.getD "General", "Not Started", none, none, none⟩],
        nextTaskId := db.nextTaskId + 1,
        trace := db.trace ++ [.insertTask sid] }
      simp only at h
      simp [h.1, h.2, flattenSpec]
    · have hne : subs.isEmpty = false := by
        cases subs with
        | nil => exact absurd rfl hsubs
        | cons a l => rfl
      simp only [save_recursive_tasks, DB.insertTaskRow, hok, if_true, hne,
        Bool.false_eq_true, if_false]
      have hsub := ihsub { db with
        tasks := db.tasks ++ [⟨db.nextTaskId, none, sid, pid, name,
          role.getD "General", "Not Started", none, none, none⟩],
        nextTaskId := db.nextTaskId + 1,
        trace := db.trace ++ [.insertTask sid] }
      simp only at hsub
      have hrest := ihrest (save_recursive_tasks ok subs sid (some db.nextTaskId)
        { db with
          tasks := db.tasks ++ [⟨db.nextTaskId, none, sid, pid, name,
            role.getD "General", "Not Started", none, none, none⟩],
          nextTaskId := db.nextTaskId + 1,
          trace := db.trace ++ [.insertTask sid] })
      rw [hrest.1, hrest.2, hsub.1, hsub.2]
      simp [flattenSpec]
  termination_by l => sizeOf l
  decreasing_by
    all_goals simp_wf
    all_goals omega

/-- The flattening has one row per node, and every row carries the caller's
stage id, status `"Not Started"` and no `project_id`. -/
theorem flattenSpec_rows :
    (l : List TaskNode) → (sid : Nat) → (pid : Option Nat) → (n : Nat) →
    (flattenSpec l sid pid n).1.length = nodeCount l
      ∧ ∀ r ∈ (flattenSpec l sid pid n).1,
          r.stage_id = sid ∧ r.status = "Not Started" ∧ r.project_id = none
  | [], sid, pid, n => by simp [flattenSpec, nodeCount]
  | TaskNode.mk name role subs :: rest, sid, pid, n => by
    have hsub := flattenSpec_rows subs sid (some n) (n + 1)
    have hrest := flattenSpec_rows rest sid pid (flattenSpec subs sid (some n) (n + 1)).2
    constructor
    · simp only [flattenSpec, nodeCount, List.length_cons, List.length_append,
        hsub.1, hrest.1]
      omega
    · intro r hr
      simp only [flattenSpec, List.mem_cons, List.mem_append] at hr
      rcases hr with hr | hr | hr
      · subst hr; exact ⟨rfl, rfl, rfl⟩
      · exact hsub.2 r hr
      · exact hrest.2 r hr
  termination_by l => sizeOf l
  decreasing_by
    all_goals simp_wf
    all_goals omega

/-- Node count of a replicated forest. -/
theorem nodeCount_replicate (t : TaskNode) :
    ∀ b : Nat, nodeCount (List.replicate b t) = b * nodeCount [t] := by
  intro b
  induction b with
  | zero => simp [List.replicate, nodeCount]
  | succ b ih =>
    cases t with
    | mk name role subs =>
      simp only [List.replicate, nodeCount, ih]
      ring

/-- The perfect tree of depth `d`, breadth `b` has `∑ i ≤ d, b^i` nodes. -/
theorem nodeCount_perfectTree (b : Nat) :
    ∀ d : Nat, nodeCount [perfectTree d b] = ∑ i ∈ Finset.range (d + 1), b ^ i := by
  intro d
  induction d with
  | zero => simp [perfectTree, nodeCount]
  | succ d ih =>
    have hstep : nodeCount [perfectTree (d + 1) b]
        = 1 + b * nodeCount [perfectTree d b] := by
      simp [perfectTree, nodeCount, nodeCount_replicate]
    have hgeom : ∑ i ∈ Finset.range (d + 1 + 1), b ^ i
        = 1 + b * ∑ i ∈ Finset.range (d + 1), b ^ i := by
      rw [Finset.sum_range_succ', pow_zero, Finset.mul_sum, add_comm]
      congr 1
      refine Finset.sum_congr rfl fun i _ => ?_
      rw [pow_succ, mul_comm]
    rw [hstep, ih, hgeom]

/-- A failed insert drops the node and its whole subtree, then continues
with the remaining siblings; nothing is raised (the function is total). -/
theorem save_tasks_failed_insert (ok : Nat → Bool) (t : TaskNode)
    (rest : List TaskNode) (sid : Nat) (pid : Option Nat) (db : DB)
    (h : ok db.nextTaskId = false) :
    save_recursive_tasks ok (t :: rest) sid pid db
      = save_recursive_tasks ok rest sid pid
          { db with nextTaskId := db.nextTaskId + 1,
                    trace := db.trace ++ [.insertTask sid] } := by
  cases t with
  | mk name role subs =>
    simp [save_recursive_tasks, DB.insertTaskRow, h]

/-- `save_recursive_tasks` only appends task rows, all with a NULL
`project_id`, and touches no other table. -/
theorem save_tasks_appends (ok : Nat → Bool) :
    (l : List TaskNode) → (sid : Nat) → (pid : Option Nat) → (db : DB) →
    (∃ suf : List TaskRow,
        (save_recursive_tasks ok l sid pid db).tasks = db.tasks ++ suf
        ∧ ∀ r ∈ suf, r.project_id = none)
      ∧ (save_recursive_tasks ok l sid pid db).projects = db.projects
      ∧ (save_recursive_tasks ok l sid pid db).stages = db.stages
      ∧ (save_recursive_tasks ok l sid pid db).leads = db.leads
      ∧ (save_recursive_tasks ok l sid pid db).chat_logs = db.chat_logs
      ∧ (save_recursive_tasks ok l sid pid db).members = db.members
  | [], sid, pid, db => by
    refine ⟨⟨[], by simp [save_recursive_tasks], by simp⟩, ?_⟩
    simp [save_recursive_tasks]
  | TaskNode.mk name role subs :: rest, sid, pid, db => by
    by_cases hk : ok db.nextTaskId
    · by_cases hsubs : subs.isEmpty
      · have hrest := save_tasks_appends ok rest sid pid
          { db with
            tasks := db.tasks ++ [⟨db.nextTaskId, none, sid, pid, name,
              role.getD "General", "Not Started", none, none, none⟩],
            nextTaskId := db.nextTaskId + 1,
            trace := db.trace ++ [.insertTask sid] }
        obtain ⟨⟨suf, hsuf, hnone⟩, hrest2⟩ := hrest
        simp only [save_recursive_tasks, DB.insertTaskRow, hk, if_true, hsubs]
        simp only at hsuf hrest2 ⊢
        refine ⟨⟨⟨db.nextTaskId, none, sid, pid, name, role.getD "General",
          "Not Started", none, none, none⟩ :: suf, ?_, ?_⟩, ?_⟩
        · rw [hsuf]; simp
        · intro r hr
          rcases List.mem_cons.mp hr with hr | hr
          · subst hr; rfl
          · exact hnone r hr
        · exact hrest2
      · have hsub := save_tasks_appends ok subs sid (some db.nextTaskId)
          { db with
            tasks := db.tasks ++ [⟨db.nextTaskId, none, sid, pid, name,
              role.getD "General", "Not Started", none, none, none⟩],
            nextTaskId := db.nextTaskId + 1,
            trace := db.trace ++ [.insertTask sid] }
        obtain ⟨⟨suf1, hsuf1, hnone1⟩, hsub2⟩ := hsub
        have hrest := save_tasks_appends ok rest sid pid
          (save_recursive_tasks ok subs sid (some db.nextTaskId)
            { db with
              tasks := db.tasks ++ [⟨db.nextTaskId, none, sid, pid, name,
                role.getD "General", "Not Started", none, none, none⟩],
              nextTaskId := db.nextTaskId + 1,
              trace := db.trace ++ [.insertTask sid] })
        obtain ⟨⟨suf2, hsuf2, hnone2⟩, hrest2⟩ := hrest
        simp only [save_recursive_tasks, DB.insertTaskRow, hk, if_true, hsubs,
          Bool.false_eq_true, if_false]
        simp only at hsuf1 hsuf2 hsub2 hrest2 ⊢
        refine ⟨⟨⟨db.nextTaskId, none, sid, pid, name, role.getD "General",
          "Not Started", none, none, none⟩ :: (suf1 ++ suf2), ?_, ?_⟩, ?_⟩
        · rw [hsuf2, hsuf1]; simp
        · intro r hr
          rcases List.mem_cons.mp hr with hr | hr
          · subst hr; rfl
          · rcases List.mem_append.mp hr with hr | hr
            · exact hnone1 r hr
            · exact hnone2 r hr
        · rw [hrest2.1, hsub2.1, hrest2.2.1, hsub2.2.1, hrest2.2.2.1,
            hsub2.2.2.1, hrest2.2.2.2.1, hsub2.2.2.2.1, hrest2.2.2.2.2,
            hsub2.2.2.2.2]
          exact ⟨rfl, rfl, rfl, rfl, rfl⟩
    · have hkf : ok db.nextTaskId = false := by
        cases hkk : ok db.nextTaskId with
        | false => rfl
        | true => exact absurd hkk hk
      have hrest := save_tasks_appends ok rest sid pid
        { db with nextTaskId := db.nextTaskId + 1,
                  trace := db.trace ++ [.insertTask sid] }
      obtain ⟨⟨suf, hsuf, hnone⟩, hrest2⟩ := hrest
      rw [save_tasks_failed_insert ok _ rest sid pid db hkf]
      simp only at hsuf hrest2 ⊢
      exact ⟨⟨suf, hsuf, hnone⟩, hrest2⟩
  termination_by l => sizeOf l
  decreasing_by
    all_goals simp_wf
    all_goals omega

/-! ## Lemmas about the WBS template loop -/

/-- A fold that conditionally appends is an append of a `filterMap`. -/
theorem foldl_append_if {β : Type} (p : Nat → Prop) [DecidablePred p]
    (g : Nat → β) :
    ∀ (l : List Nat) (acc : List β),
      l.foldl (fun acc i => if p i then acc ++ [g i] else acc) acc
        = acc ++ l.filterMap (fun i => if p i then some (g i) else none) := by
  intro l
  induction l with
  | nil => intro acc; simp
  | cons a l ih =>
    intro acc
    by_cases h : p a <;> simp [h, ih]

/-- Length of a conditional `filterMap`. -/
theorem filterMap_if_length {β : Type} (p : Nat → Prop) [DecidablePred p]
    (g : Nat → β) (l : List Nat) :
    (l.filterMap (fun i => if p i then some (g i) else none)).length
      = (l.filter (fun i => decide (p i))).length := by
  induction l with
  | nil => simp
  | cons a l ih =>
    by_cases h : p a <;> simp [h, ih]

/-! ## Lemmas about the schedule-generation loop -/

/-- With all inserts succeeding, the stage loop leaves `projects` alone and
adds one stage row per schedule item and one task row per task node. -/
theorem schedule_loop_adds (ok okS : Nat → Bool) (hok : ∀ n, ok n = true)
    (hokS : ∀ n, okS n = true) (pid : Nat) :
    ∀ (l : List ScheduleStage) (db : DB),
      (schedule_loop ok okS pid l db).projects = db.projects
      ∧ (schedule_loop ok okS pid l db).stages.length
          = db.stages.length + l.length
      ∧ (schedule_loop ok okS pid l db).tasks.length
          = db.tasks.length + scheduleNodeCount l := by
  intro l
  induction l with
  | nil =>
    intro db
    simp [schedule_loop, scheduleNodeCount]
  | cons item rest ih =>
    intro db
    cases htasks : item.tasks with
    | none =>
      have key : schedule_loop ok okS pid (item :: rest) db
          = schedule_loop ok okS pid rest
              { db with
                stages := db.stages ++ [⟨db.nextStageId, pid, item.stage_name, "Scheduled"⟩],
                nextStageId := db.nextStageId + 1,
                trace := db.trace ++ [.insertStage pid] } := by
        simp [schedule_loop, DB.insertStageRow, hokS, htasks]
      have h := ih { db with
        stages := db.stages ++ [⟨db.nextStageId, pid, item.stage_name, "Scheduled"⟩],
        nextStageId := db.nextStageId + 1,
        trace := db.trace ++ [.insertStage pid] }
      rw [key]
      refine ⟨h.1, ?_, ?_⟩
      · rw [h.2.1]
        simp
        omega
      · rw [h.2.2]
        simp [scheduleNodeCount, htasks, nodeCount]
    | some ts =>
      have key : schedule_loop ok okS pid (item :: rest) db
          = schedule_loop ok okS pid rest
              (save_recursive_tasks ok ts db.nextStageId none
                { db with
                  stages := db.stages ++ [⟨db.nextStageId, pid, item.stage_name, "Scheduled"⟩],
                  nextStageId := db.nextStageId + 1,
                  trace := db.trace ++ [.insertStage pid] }) := by
        simp [schedule_loop, DB.insertStageRow, hokS, htasks]
      have hsave := save_tasks_appends ok ts db.nextStageId none
        { db with
          stages := db.stages ++ [⟨db.nextStageId, pid, item.stage_name, "Scheduled"⟩],
          nextStageId := db.nextStageId + 1,
          trace := db.trace ++ [.insertStage pid] }
      have hlen := save_tasks_spec ok hok ts db.nextStageId none
        { db with
          stages := db.stages ++ [⟨db.nextStageId, pid, item.stage_name, "Scheduled"⟩],
          nextStageId := db.nextStageId + 1,
          trace := db.trace ++ [.insertStage pid] }
      have h := ih (save_recursive_tasks ok ts db.nextStageId none
        { db with
          stages := db.stages ++ [⟨db.nextStageId, pid, item.stage_name, "Scheduled"⟩],
          nextStageId := db.nextStageId + 1,
          trace := db.trace ++ [.insertStage pid] })
      rw [key]
      refine ⟨?_, ?_, ?_⟩
      · rw [h.1, hsave.2.1]
      · rw [h.2.1, hsave.2.2.1]
        simp
        omega
      · rw [h.2.2, hlen.1]
        have hflat := (flattenSpec_rows ts db.nextStageId none db.nextTaskId).1
        simp [scheduleNodeCount, htasks]
        omega

/-! ## Claims -/

/-- C1: persisting a task forest with `save_recursive_tasks` appends, when
every insert yields an id, exactly the preorder flattening `flattenSpec` of
the input — children in input order, no reordering or deduplication, each
row with the given `stage_id`, status `"Not Started"`, and `parent_task_id`
the parent's generated id (the caller's `parent_id` for root nodes); the
flattening of the perfect tree of depth `d` and breadth `b` has exactly
`∑ i ≤ d, b^i` rows; and when a node's own insert yields no id, neither the
node nor any of its descendants is created, later siblings are still
processed, and no error is surfaced (the function returns normally). -/
theorem save_recursive_tasks_correct :
    (∀ (ok : Nat → Bool), (∀ n, ok n = true) →
      ∀ (l : List TaskNode) (sid : Nat) (pid : Option Nat) (db : DB),
        (save_recursive_tasks ok l sid pid db).tasks
          = db.tasks ++ (flattenSpec l sid pid db.nextTaskId).1)
    ∧ (∀ (l : List TaskNode) (sid : Nat) (pid : Option Nat) (n : Nat),
        (flattenSpec l sid pid n).1.length = nodeCount l
        ∧ ∀ r ∈ (flattenSpec l sid pid n).1,
            r.stage_id = sid ∧ r.status = "Not Started")
    ∧ (∀ b d : Nat,
        nodeCount [perfectTree d b] = ∑ i ∈ Finset.range (d + 1), b ^ i)
    ∧ (∀ (ok : Nat → Bool) (t : TaskNode) (rest : List TaskNode) (sid : Nat)
        (pid : Option Nat) (db : DB), ok db.nextTaskId = false →
        save_recursive_tasks ok (t :: rest) sid pid db
          = save_recursive_tasks ok rest sid pid
              { db with nextTaskId := db.nextTaskId + 1,
                        trace := db.trace ++ [.insertTask sid] }) :=
  ⟨fun ok hok l sid pid db => (save_tasks_spec ok hok l sid pid db).1,
   fun l sid pid n =>
     ⟨(flattenSpec_rows l sid pid n).1,
      fun r hr => ⟨((flattenSpec_rows l sid pid n).2 r hr).1,
                   ((flattenSpec_rows l sid pid n).2 r hr).2.1⟩⟩,
   fun b d => nodeCount_perfectTree b d,
   fun ok t rest sid pid db h => save_tasks_failed_insert ok t rest sid pid db h⟩

/-- Witness for C1 at the depth-2, breadth-2 perfect tree with succeeding
inserts, and at a failing root insert. -/
theorem save_recursive_tasks_correct_witness :
    (∀ n, okAll n = true)
    ∧ (save_recursive_tasks okAll [perfectTree 2 2] 7 none DB.empty).tasks
        = DB.empty.tasks ++ (flattenSpec [perfectTree 2 2] 7 none DB.empty.nextTaskId).1
    ∧ nodeCount [perfectTree 2 2] = ∑ i ∈ Finset.range 3, 2 ^ i
    ∧ okNone DB.empty.nextTaskId = false
    ∧ save_recursive_tasks okNone [perfectTree 2 2] 7 none DB.empty
        = save_recursive_tasks okNone [] 7 none
            { DB.empty with nextTaskId := DB.empty.nextTaskId + 1,
                            trace := DB.empty.trace ++ [.insertTask 7] } :=
  ⟨fun _ => rfl,
   save_recursive_tasks_correct.1 okAll (fun _ => rfl) [perfectTree 2 2] 7 none DB.empty,
   save_recursive_tasks_correct.2.2.1 2 2,
   rfl,
   save_recursive_tasks_correct.2.2.2 okNone (perfectTree 2 2) [] 7 none DB.empty rfl⟩

/-- C2: for every floor and tower count, the Residential/High-Rise template
is exactly the 4 fixed base stages, then one "Superstructure (Floors
start-end)" stage per group index `i < floors/5 + 1` with `start = 5*i+1`,
emitted only when `start ≤ floors`, upper bound `min (5*(i+1)) floors`
(clamped to `floors`), then the 4 fixed finishing stages; the stage count is
`4 + (number of emitted groups) + 4`, and `floors = 12` yields groups
starting at 1, 6, 11 — hence 3 superstructure stages and 11 stages total. -/
theorem get_wbs_template_highrise_stages (f t : Nat) :
    get_wbs_template "Residential" "High-Rise" f t
      = [⟨"Site Mobilization", "Fencing, Cranes Setup, Site Office", true⟩,
         ⟨"Excavation & Piling", "Deep excavation, Shoring, Piles", true⟩,
         ⟨"Substructure (Basement)", "Basement levels, Retaining walls", true⟩,
         ⟨"Podium/Lobby Level", "Ground floor high-ceilings, Transfer slabs", true⟩]
        ++ (List.range (f / 5 + 1)).filterMap (fun i =>
             if i * 5 + 1 ≤ f then
               some ⟨"Superstructure (Floors " ++ toString (i * 5 + 1) ++ "-"
                     ++ toString (min ((i + 1) * 5) f) ++ ")",
                     "Column pouring, Slab casting for tower "
                     ++ (if t = 1 then "1" else "A/B"), true⟩
             else none)
        ++ [⟨"Facade & Envelope", "Glass curtain wall, Cladding", true⟩,
            ⟨"MEP First Fix", "Risers, Main distribution lines", false⟩,
            ⟨"Interiors (Fit-out)", "Partitions, Flooring, Ceilings per unit", false⟩,
            ⟨"Testing & Commissioning", "Elevator testing, Fire safety systems", false⟩]
    ∧ (get_wbs_template "Residential" "High-Rise" f t).length
        = 4 + ((List.range (f / 5 + 1)).filter (fun i => decide (i * 5 + 1 ≤ f))).length + 4
    ∧ (get_wbs_template "Residential" "High-Rise" 12 t).length = 11 := by
  have key : ∀ g : Nat,
      get_wbs_template "Residential" "High-Rise" g t
        = [⟨"Site Mobilization", "Fencing, Cranes Setup, Site Office", true⟩,
           ⟨"Excavation & Piling", "Deep excavation, Shoring, Piles", true⟩,
           ⟨"Substructure (Basement)", "Basement levels, Retaining walls", true⟩,
           ⟨"Podium/Lobby Level", "Ground floor high-ceilings, Transfer slabs", true⟩]
          ++ (List.range (g / 5 + 1)).filterMap (fun i =>
               if i * 5 + 1 ≤ g then
                 some ⟨"Superstructure (Floors " ++ toString (i * 5 + 1) ++ "-"
                       ++ toString (min ((i + 1) * 5) g) ++ ")",
                       "Column pouring, Slab casting for tower "
                       ++ (if t = 1 then "1" else "A/B"), true⟩
               else none)
          ++ [⟨"Facade & Envelope", "Glass curtain wall, Cladding", true⟩,
              ⟨"MEP First Fix", "Risers, Main distribution lines", false⟩,
              ⟨"Interiors (Fit-out)", "Partitions, Flooring, Ceilings per unit", false⟩,
              ⟨"Testing & Commissioning", "Elevator testing, Fire safety systems", false⟩] := by
    intro g
    rw [get_wbs_template, if_neg (by decide), if_pos (by decide)]
    dsimp only
    rw [foldl_append_if (fun i => i * 5 + 1 ≤ g)
      (fun i => (⟨"Superstructure (Floors " ++ toString (i * 5 + 1) ++ "-"
        ++ toString (min ((i + 1) * 5) g) ++ ")",
        "Column pouring, Slab casting for tower "
        ++ (if t = 1 then "1" else "A/B"), true⟩ : StageTemplate))]
  refine ⟨key f, ?_, ?_⟩
  · rw [key f]
    simp [filterMap_if_length]
    omega
  · rw [key 12]
    simp [filterMap_if_length]
    decide

/-- C3: `get_phase_structure` maps each of the eight documented project
types to a fixed list of 6-8 phase names and any other project type to the
fallback `["Mobilization", "Construction", "Closeout"]`. -/
theorem get_phase_structure_phases :
    (∀ pt ∈ (["Residential", "Commercial", "Mixed-Use", "Hospitality",
              "Institutional", "Industrial", "Infrastructure", "Renovation"] : List String),
       6 ≤ (get_phase_structure pt).length ∧ (get_phase_structure pt).length ≤ 8)
    ∧ ∀ pt : String,
        pt ∉ (["Residential", "Commercial", "Mixed-Use", "Hospitality",
               "Institutional", "Industrial", "Infrastructure", "Renovation"] : List String) →
        get_phase_structure pt = ["Mobilization", "Construction", "Closeout"] := by
  constructor
  · decide
  · intro pt h
    simp only [List.mem_cons, List.not_mem_nil, or_false, not_or] at h
    obtain ⟨h1, h2, h3, h4, h5, h6, h7, h8⟩ := h
    simp [get_phase_structure, h1, h2, h3, h4, h5, h6, h7, h8]

/-- Witness for C3 at the known type "Residential" and the unknown type
"Custom Depot". -/
theorem get_phase_structure_phases_witness :
    "Residential" ∈ (["Residential", "Commercial", "Mixed-Use", "Hospitality",
        "Institutional", "Industrial", "Infrastructure", "Renovation"] : List String)
    ∧ (6 ≤ (get_phase_structure "Residential").length
       ∧ (get_phase_structure "Residential").length ≤ 8)
    ∧ "Custom Depot" ∉ (["Residential", "Commercial", "Mixed-Use", "Hospitality",
        "Institutional", "Industrial", "Infrastructure", "Renovation"] : List String)
    ∧ get_phase_structure "Custom Depot" = ["Mobilization", "Construction", "Closeout"] :=
  ⟨by decide,
   get_phase_structure_phases.1 "Residential" (by decide),
   by decide,
   get_phase_structure_phases.2 "Custom Depot" (by decide)⟩

/-- C5: whenever the LLM call or JSON parse inside the lead qualifier
fails, `qualify_lead_with_ai` returns the degraded assessment
`{"scoring": {"score": 0}}` — score 0 — instead of propagating the
exception. -/
theorem qualify_lead_error_degrades (llm : String → Option AIResult)
    (raw_text : String) (h : llm raw_text = none) :
    qualify_lead_with_ai llm raw_text
      = { extracted_data := none, scoring := some { score := some 0 } }
    ∧ aiScore (qualify_lead_with_ai llm raw_text) = 0 := by
  simp [qualify_lead_with_ai, h, aiScore]

/-- Witness for C5 at an always-failing oracle. -/
theorem qualify_lead_error_degrades_witness :
    llmFailing "Looking for a villa" = none
    ∧ qualify_lead_with_ai llmFailing "Looking for a villa"
        = { extracted_data := none, scoring := some { score := some 0 } }
    ∧ aiScore (qualify_lead_with_ai llmFailing "Looking for a villa") = 0 :=
  ⟨rfl,
   (qualify_lead_error_degrades llmFailing "Looking for a villa" rfl).1,
   (qualify_lead_error_degrades llmFailing "Looking for a villa" rfl).2⟩

/-- C4: on a `/chat/send` Sales request, a qualifier score of 0 creates no
Lead row and yields the generic logged-only reply, while a score `s` with
`1 ≤ s ≤ 100` creates exactly one Lead row whose `lead_score` is `s` and
yields a confirmation string naming the lead and the score. -/
theorem chat_sales_lead_creation (execLLM : List TaskCtx → Option ExecRes)
    (salesLLM : String → Option AIResult) (req : ChatMessage) (db : DB)
    (hctx : req.context = "Sales") :
    (aiScore (qualify_lead_with_ai salesLLM req.message) = 0 →
       (send_chat_update execLLM salesLLM req db).1.leads = db.leads
       ∧ (send_chat_update execLLM salesLLM req db).2
           = ⟨"Message Logged", "Message logged."⟩)
    ∧ (∀ s : Nat, 1 ≤ s → s ≤ 100 →
        aiScore (qualify_lead_with_ai salesLLM req.message) = s →
        ∃ row : LeadRow,
          (send_chat_update execLLM salesLLM req db).1.leads = db.leads ++ [row]
          ∧ row.lead_score = s
          ∧ (send_chat_update execLLM salesLLM req db).2
              = ⟨"Lead Detected",
                 "Added " ++ row.name ++ " to pipeline (Score: "
                   ++ toString s ++ ")."⟩) := by
  have hne : req.context ≠ "Execution" := by rw [hctx]; decide
  constructor
  · intro hscore
    simp [send_chat_update, hne, hctx, hscore, DB.insertChatLogRow, DB.logEvent]
  · intro s h1 h100 hscore
    cases hsc : (qualify_lead_with_ai salesLLM req.message).scoring with
    | none => simp [aiScore, hsc] at hscore; omega
    | some sc =>
      cases hscv : sc.score with
      | none => simp [aiScore, hsc, hscv] at hscore; omega
      | some v =>
        have hv : v = s := by simpa [aiScore, hsc, hscv] using hscore
        have hspos : 0 < s := by omega
        refine ⟨⟨req.project_id,
          ((qualify_lead_with_ai salesLLM req.message).extracted_data.getD
            ⟨none, none, none⟩).name.getD "New Lead",
          ((qualify_lead_with_ai salesLLM req.message).extracted_data.getD
            ⟨none, none, none⟩).phone.getD "",
          ((qualify_lead_with_ai salesLLM req.message).extracted_data.getD
            ⟨none, none, none⟩).email.getD "",
          "Chat", s, "New"⟩, ?_, rfl, ?_⟩
        · simp [send_chat_update, hne, hctx, DB.insertChatLogRow, DB.logEvent,
            DB.insertLeadRow, aiScore, hsc, hscv, hv, hspos]
        · simp [send_chat_update, hne, hctx, DB.insertChatLogRow, DB.logEvent,
            DB.insertLeadRow, aiScore, hsc, hscv, hv, hspos]

/-- Witness for C4 at a score-0 oracle and a score-80 oracle. -/
theorem chat_sales_lead_creation_witness :
    reqSales.context = "Sales"
    ∧ aiScore (qualify_lead_with_ai salesZero reqSales.message) = 0
    ∧ ((send_chat_update execNone salesZero reqSales DB.empty).1.leads = DB.empty.leads
       ∧ (send_chat_update execNone salesZero reqSales DB.empty).2
           = ⟨"Message Logged", "Message logged."⟩)
    ∧ (1 ≤ 80 ∧ 80 ≤ 100
       ∧ aiScore (qualify_lead_with_ai salesHigh reqSales.message) = 80)
    ∧ (∃ row : LeadRow,
        (send_chat_update execNone salesHigh reqSales DB.empty).1.leads
          = DB.empty.leads ++ [row]
        ∧ row.lead_score = 80
        ∧ (send_chat_update execNone salesHigh reqSales DB.empty).2
            = ⟨"Lead Detected",
               "Added " ++ row.name ++ " to pipeline (Score: "
                 ++ toString 80 ++ ")."⟩) :=
  ⟨rfl, rfl,
   (chat_sales_lead_creation execNone salesZero reqSales DB.empty rfl).1 rfl,
   ⟨by decide, by decide, rfl⟩,
   (chat_sales_lead_creation execNone salesHigh reqSales DB.empty rfl).2 80
     (by decide) (by decide) rfl⟩

/-- C6: calling generate-schedule twice with the same project code reuses
the existing project id on the second call and inserts no second Project
row, while the second call's Stage and Task rows are inserted again without
deduplication (one stage row per schedule item, one task row per node, on
top of the first call's rows). -/
theorem generate_schedule_project_reuse (ok okS : Nat → Bool)
    (hok : ∀ n, ok n = true) (hokS : ∀ n, okS n = true)
    (req : ProjectRequest) (llm1 llm2 : List ScheduleStage) (db : DB)
    (hfresh : ∀ p ∈ db.projects, p.code ≠ req.code) :
    (generate_schedule ok okS llm2 req (generate_schedule ok okS llm1 req db).1).2
        = (generate_schedule ok okS llm1 req db).2
    ∧ (generate_schedule ok okS llm2 req (generate_schedule ok okS llm1 req db).1).1.projects
        = (generate_schedule ok okS llm1 req db).1.projects
    ∧ (generate_schedule ok okS llm1 req db).1.projects.length = db.projects.length + 1
    ∧ (generate_schedule ok okS llm2 req (generate_schedule ok okS llm1 req db).1).1.stages.length
        = (generate_schedule ok okS llm1 req db).1.stages.length + llm2.length
    ∧ (generate_schedule ok okS llm2 req (generate_schedule ok okS llm1 req db).1).1.tasks.length
        = (generate_schedule ok okS llm1 req db).1.tasks.length + scheduleNodeCount llm2 := by
  have hfind : db.projects.find? (fun p => p.code == req.code) = none := by
    rw [List.find?_eq_none]
    intro p hp
    simpa using hfresh p hp
  have h1 : generate_schedule ok okS llm1 req db
      = (schedule_loop ok okS db.nextProjectId llm1
          ((db.insertProjectRow req.name req.code "Planning").1.logEvent .llmCall),
         db.nextProjectId) := by
    simp [generate_schedule, hfind, DB.insertProjectRow]
  have hb : (generate_schedule ok okS llm1 req db).1.projects
      = db.projects ++ [⟨db.nextProjectId, req.name, req.code, "Planning"⟩] := by
    rw [h1]
    rw [(schedule_loop_adds ok okS hok hokS db.nextProjectId llm1 _).1]
    simp [DB.insertProjectRow, DB.logEvent]
  have hfind2 : (generate_schedule ok okS llm1 req db).1.projects.find?
      (fun p => p.code == req.code)
      = some ⟨db.nextProjectId, req.name, req.code, "Planning"⟩ := by
    rw [hb, List.find?_append, hfind]
    simp [List.find?]
  have hsecond : ∀ dbx : DB,
      dbx.projects.find? (fun p => p.code == req.code)
        = some ⟨db.nextProjectId, req.name, req.code, "Planning"⟩ →
      generate_schedule ok okS llm2 req dbx
        = (schedule_loop ok okS db.nextProjectId llm2 (dbx.logEvent .llmCall),
           db.nextProjectId) := by
    intro dbx hfx
    simp [generate_schedule, hfx]
  have h2a := hsecond (generate_schedule ok okS llm1 req db).1 hfind2
  refine ⟨?_, ?_, ?_, ?_, ?_⟩
  · rw [h2a, h1]
  · rw [h2a, (schedule_loop_adds ok okS hok hokS db.nextProjectId llm2 _).1]
    simp [DB.logEvent]
  · rw [hb]
    simp
  · rw [h2a, (schedule_loop_adds ok okS hok hokS db.nextProjectId llm2 _).2.1]
    simp [DB.logEvent]
  · rw [h2a, (schedule_loop_adds ok okS hok hokS db.nextProjectId llm2 _).2.2]
    simp [DB.logEvent]

/-- Witness for C6 on an empty datastore and a one-stage, one-task
schedule, run twice with the same code. -/
theorem generate_schedule_project_reuse_witness :
    (∀ n, okAll n = true)
    ∧ (∀ p ∈ DB.empty.projects, p.code ≠ reqGen.code)
    ∧ ((generate_schedule okAll okAll llmSched reqGen
          (generate_schedule okAll okAll llmSched reqGen DB.empty).1).2
        = (generate_schedule okAll okAll llmSched reqGen DB.empty).2
       ∧ (generate_schedule okAll okAll llmSched reqGen
            (generate_schedule okAll okAll llmSched reqGen DB.empty).1).1.projects
          = (generate_schedule okAll okAll llmSched reqGen DB.empty).1.projects
       ∧ (generate_schedule okAll okAll llmSched reqGen DB.empty).1.projects.length
          = DB.empty.projects.length + 1
       ∧ (generate_schedule okAll okAll llmSched reqGen
            (generate_schedule okAll okAll llmSched reqGen DB.empty).1).1.stages.length
          = (generate_schedule okAll okAll llmSched reqGen DB.empty).1.stages.length
            + llmSched.length
       ∧ (generate_schedule okAll okAll llmSched reqGen
            (generate_schedule okAll okAll llmSched reqGen DB.empty).1).1.tasks.length
          = (generate_schedule okAll okAll llmSched reqGen DB.empty).1.tasks.length
            + scheduleNodeCount llmSched) :=
  ⟨fun _ => rfl,
   by intro p hp; simp [DB.empty] at hp,
   generate_schedule_project_reuse okAll okAll (fun _ => rfl) (fun _ => rfl)
     reqGen llmSched llmSched DB.empty
     (by intro p hp; simp [DB.empty] at hp)⟩

/-- C7 counterexample: the Execution-branch task window is not restricted
to open tasks — on a datastore whose only task of project 1 is already
"Completed", that task appears in the window handed to the LLM. -/
theorem execution_context_includes_completed :
    ¬ (∀ c ∈ execution_task_context dbCompletedTask 1, c.status ≠ "Completed") := by
  decide

/-- C7 (amended): the task context assembled for the Execution-branch LLM
contains at most 30 entries, and every entry comes from a task row of the
requested project — of any status, completed tasks included. -/
theorem execution_context_bounded_project (db : DB) (pid : Nat) :
    (execution_task_context db pid).length ≤ 30
    ∧ ∀ c ∈ execution_task_context db pid,
        ∃ r ∈ db.tasks, r.project_id = some pid ∧ c = ⟨r.id, r.name, r.status⟩ := by
  constructor
  · simp [execution_task_context]
  · intro c hc
    simp only [execution_task_context, List.mem_map] at hc
    obtain ⟨t, ht, hc⟩ := hc
    have ht' := List.mem_of_mem_take ht
    rw [filter_by_project, List.mem_filter] at ht'
    refine ⟨t, ht'.1, ?_, hc.symm⟩
    have := ht'.2
    simpa using this

/-- Witness for C7 (amended) on the completed-task datastore. -/
theorem execution_context_bounded_project_witness :
    (execution_task_context dbCompletedTask 1).length ≤ 30
    ∧ ∀ c ∈ execution_task_context dbCompletedTask 1,
        ∃ r ∈ dbCompletedTask.tasks,
          r.project_id = some 1 ∧ c = ⟨r.id, r.name, r.status⟩ :=
  execution_context_bounded_project dbCompletedTask 1

/-- C8 counterexample: an assignment of 4 estimated hours makes
auto-schedule set the task's end date one day after today, not
`4 / 8 = 0` days as the claim states (`days = max(1, hours // 8)`). -/
theorem auto_schedule_end_date_counterexample :
    ∃ r ∈ (auto_schedule (some [⟨1, some "u1", 4⟩]) 100 ⟨1⟩ dbOneOpenTask).1.tasks,
      r.id = 1 ∧ r.start_date = some 100 ∧ r.status = "In Progress"
      ∧ r.end_date ≠ some (100 + 4 / 8) ∧ r.end_date = some 101 := by
  decide

/-- C8 (amended): for every assignment the auto-schedule loop processes
(one with a non-empty member id), the updated task rows get start date
today, end date exactly `max 1 (hours / 8)` days from today — not
`hours / 8` — and status "In Progress"; rows with a different id are left
as they were. -/
theorem auto_schedule_assignment_dates (today : Nat) (db : DB)
    (a : Assignment) (m : String) (hm : a.member_id = some m) (hne : m ≠ "") :
    ∀ r ∈ (apply_assignment today db a).tasks,
      (r.id = a.task_id →
        r.start_date = some today
        ∧ r.end_date = some (today + max 1 (a.hours / 8))
        ∧ r.status = "In Progress" ∧ r.assigned_sub_id = some m)
      ∧ (r.id ≠ a.task_id → r ∈ db.tasks) := by
  intro r hr
  simp only [apply_assignment, hm, Option.getD_some, if_neg hne] at hr
  obtain ⟨x, hx, hxr⟩ := List.mem_map.mp hr
  by_cases hid : x.id = a.task_id
  · simp only [hid, beq_self_eq_true, if_true] at hxr
    subst hxr
    constructor
    · intro _
      exact ⟨rfl, rfl, rfl, rfl⟩
    · intro hneq
      exact absurd rfl hneq
  · have hfalse : (x.id == a.task_id) = false := by simpa using hid
    rw [hfalse] at hxr
    simp at hxr
    subst hxr
    constructor
    · intro h
      exact absurd h hid
    · intro _
      exact hx

/-- Witness for C8 (amended) at a 20-hour assignment: 20 / 8 = 2 days. -/
theorem auto_schedule_assignment_dates_witness :
    (⟨1, some "u1", 20⟩ : Assignment).member_id = some "u1"
    ∧ ("u1" : String) ≠ ""
    ∧ ∀ r ∈ (apply_assignment 50 dbOneOpenTask ⟨1, some "u1", 20⟩).tasks,
        (r.id = (⟨1, some "u1", 20⟩ : Assignment).task_id →
          r.start_date = some 50
          ∧ r.end_date = some (50 + max 1 ((⟨1, some "u1", 20⟩ : Assignment).hours / 8))
          ∧ r.status = "In Progress" ∧ r.assigned_sub_id = some "u1")
        ∧ (r.id ≠ (⟨1, some "u1", 20⟩ : Assignment).task_id → r ∈ dbOneOpenTask.tasks) :=
  ⟨rfl, by decide,
   auto_schedule_assignment_dates 50 dbOneOpenTask ⟨1, some "u1", 20⟩ "u1" rfl (by decide)⟩

/-- C9: every `/chat/send` request, whatever its context tag, appends
exactly one chat-log row holding the raw inbound message, and that insert
is the first side effect of the request — everything else (LLM calls, task
updates, lead inserts) comes after it in the write trace. -/
theorem chat_log_written_first (execLLM : List TaskCtx → Option ExecRes)
    (salesLLM : String → Option AIResult) (req : ChatMessage) (db : DB) :
    (send_chat_update execLLM salesLLM req db).1.chat_logs
      = db.chat_logs ++ [⟨req.project_id, req.user_id, req.message⟩]
    ∧ ∃ rest : List Event,
        (send_chat_update execLLM salesLLM req db).1.trace
          = db.trace ++ Event.insertChatLog req.project_id req.user_id req.message :: rest
        ∧ ∀ e ∈ rest, ∀ p u m, e ≠ Event.insertChatLog p u m := by
  by_cases hE : req.context = "Execution"
  · cases hllm : execLLM (execution_task_context
        (db.insertChatLogRow req.project_id req.user_id req.message) req.project_id) with
    | none =>
      simp only [DB.insertChatLogRow] at hllm
      refine ⟨?_, ⟨[.llmCall], ?_, ?_⟩⟩
      · simp [send_chat_update, hE, hllm, DB.insertChatLogRow, DB.logEvent]
      · simp [send_chat_update, hE, hllm, DB.insertChatLogRow, DB.logEvent]
      · intro e he p u m
        simp at he
        subst he
        simp
    | some res =>
      simp only [DB.insertChatLogRow] at hllm
      by_cases hact : res.action = some "UPDATE"
      · cases htid : res.task_id with
        | none =>
          refine ⟨?_, ⟨[.llmCall], ?_, ?_⟩⟩
          · simp [send_chat_update, hE, hllm, hact, htid, DB.insertChatLogRow, DB.logEvent]
          · simp [send_chat_update, hE, hllm, hact, htid, DB.insertChatLogRow, DB.logEvent]
          · intro e he p u m
            simp at he
            subst he
            simp
        | some tid =>
          cases hns : res.new_status with
          | none =>
            refine ⟨?_, ⟨[.llmCall], ?_, ?_⟩⟩
            · simp [send_chat_update, hE, hllm, hact, htid, hns, DB.insertChatLogRow, DB.logEvent]
            · simp [send_chat_update, hE, hllm, hact, htid, hns, DB.insertChatLogRow, DB.logEvent]
            · intro e he p u m
              simp at he
              subst he
              simp
          | some ns =>
            refine ⟨?_, ⟨[.llmCall, .updateTask tid], ?_, ?_⟩⟩
            · simp [send_chat_update, hE, hllm, hact, htid, hns, DB.insertChatLogRow, DB.logEvent]
            · simp [send_chat_update, hE, hllm, hact, htid, hns, DB.insertChatLogRow, DB.logEvent]
            · intro e he p u m
              simp at he
              rcases he with rfl | rfl <;> simp
      · refine ⟨?_, ⟨[.llmCall], ?_, ?_⟩⟩
        · simp [send_chat_update, hE, hllm, hact, DB.insertChatLogRow, DB.logEvent]
        · simp [send_chat_update, hE, hllm, hact, DB.insertChatLogRow, DB.logEvent]
        · intro e he p u m
          simp at he
          subst he
          simp
  · by_cases hS : req.context = "Sales"
    · by_cases hscore : aiScore (qualify_lead_with_ai salesLLM req.message) > 0
      · refine ⟨?_, ⟨[.llmCall, .insertLead req.project_id], ?_, ?_⟩⟩
        · simp [send_chat_update, hE, hS, hscore, DB.insertChatLogRow, DB.logEvent,
            DB.insertLeadRow]
        · simp [send_chat_update, hE, hS, hscore, DB.insertChatLogRow, DB.logEvent,
            DB.insertLeadRow]
        · intro e he p u m
          simp at he
          rcases he with rfl | rfl <;> simp
      · refine ⟨?_, ⟨[.llmCall], ?_, ?_⟩⟩
        · simp [send_chat_update, hE, hS, hscore, DB.insertChatLogRow, DB.logEvent]
        · simp [send_chat_update, hE, hS, hscore, DB.insertChatLogRow, DB.logEvent]
        · intro e he p u m
          simp at he
          subst he
          simp
    · refine ⟨?_, ⟨[], ?_, ?_⟩⟩
      · simp [send_chat_update, hE, hS, DB.insertChatLogRow, DB.logEvent]
      · simp [send_chat_update, hE, hS, DB.insertChatLogRow, DB.logEvent]
      · intro e he p u m
        simp at he

/-- Witness for C9 at a concrete Sales request on the empty datastore. -/
theorem chat_log_written_first_witness :
    (send_chat_update execNone salesZero reqSales DB.empty).1.chat_logs
      = DB.empty.chat_logs
        ++ [⟨reqSales.project_id, reqSales.user_id, reqSales.message⟩]
    ∧ ∃ rest : List Event,
        (send_chat_update execNone salesZero reqSales DB.empty).1.trace
          = DB.empty.trace
            ++ Event.insertChatLog reqSales.project_id reqSales.user_id reqSales.message :: rest
        ∧ ∀ e ∈ rest, ∀ p u m, e ≠ Event.insertChatLog p u m :=
  chat_log_written_first execNone salesZero reqSales DB.empty

/-- C10: every task row inserted by `/tasks/add` carries `project_id` equal
to its stage's `project_id`, every row `save_recursive_tasks` creates has a
NULL `project_id`, and a query filtering tasks on `project_id` (the
Execution chat window and the auto-scheduler both do) can only return rows
whose `project_id` matches — so it never selects a row the recursive
persister created: such rows are invisible to those queries. -/
theorem task_project_id_partition :
    (∀ (ok : Nat → Bool) (l : List TaskNode) (sid : Nat) (pid : Option Nat) (db : DB),
       ∀ r ∈ (save_recursive_tasks ok l sid pid db).tasks,
         r ∈ db.tasks ∨ r.project_id = none)
    ∧ (∀ (ok : Nat → Bool) (req : TaskAdd) (db : DB) (stage : StageRow),
        db.stages.find? (fun s => s.id == req.stage_id) = some stage →
        ok db.nextTaskId = true →
        add_task ok req db
          = some { db with
              tasks := db.tasks ++ [⟨db.nextTaskId, some stage.project_id, req.stage_id,
                req.parent_task_id, req.name, req.assigned_role, "Not Started",
                none, none, none⟩],
              nextTaskId := db.nextTaskId + 1,
              trace := db.trace ++ [.insertTask req.stage_id] })
    ∧ (∀ (rows : List TaskRow) (pid : Nat),
        ∀ r ∈ filter_by_project rows pid, r.project_id = some pid)
    ∧ (∀ (ok : Nat → Bool) (l : List TaskNode) (sid : Nat) (pid : Option Nat)
        (db : DB) (qpid : Nat),
        filter_by_project (save_recursive_tasks ok l sid pid db).tasks qpid
          = filter_by_project db.tasks qpid) := by
  refine ⟨?_, ?_, ?_, ?_⟩
  · intro ok l sid pid db r hr
    obtain ⟨⟨suf, hsuf, hnone⟩, _⟩ := save_tasks_appends ok l sid pid db
    rw [hsuf] at hr
    rcases List.mem_append.mp hr with h | h
    · exact Or.inl h
    · exact Or.inr (hnone r h)
  · intro ok req db stage hfind hok
    simp [add_task, hfind, DB.insertTaskRow, hok]
  · intro rows pid r hr
    rw [filter_by_project, List.mem_filter] at hr
    simpa using hr.2
  · intro ok l sid pid db qpid
    obtain ⟨⟨suf, hsuf, hnone⟩, _⟩ := save_tasks_appends ok l sid pid db
    rw [hsuf, filter_by_project, filter_by_project, List.filter_append]
    have hnil : suf.filter (fun t => t.project_id == some qpid) = [] := by
      rw [List.filter_eq_nil_iff]
      intro t ht
      simp [hnone t ht]
    rw [hnil, List.append_nil]

/-- Witness for C10: adding a task to stage 3 of project 5 stores
`project_id = 5` on the new row. -/
theorem task_project_id_partition_witness :
    dbOneStage.stages.find? (fun s => s.id == (3 : Nat))
      = some ⟨3, 5, "Foundation", "Scheduled"⟩
    ∧ okAll dbOneStage.nextTaskId = true
    ∧ add_task okAll ⟨3, none, "Check forms", "QA"⟩ dbOneStage
        = some { dbOneStage with
            tasks := dbOneStage.tasks ++ [⟨dbOneStage.nextTaskId, some 5, 3,
              none, "Check forms", "QA", "Not Started", none, none, none⟩],
            nextTaskId := dbOneStage.nextTaskId + 1,
            trace := dbOneStage.trace ++ [.insertTask 3] } :=
  ⟨rfl, rfl,
   task_project_id_partition.2.1 okAll ⟨3, none, "Check forms", "QA"⟩
     dbOneStage ⟨3, 5, "Foundation", "Scheduled"⟩ rfl rfl⟩

end ConstructionMVP
